import Mathlib

/-!
Shallow embedding of the QuizForge live session engine
(backend/routes/session.py, backend/websocket/hub.py, backend/models.py).

Modelling conventions:
- UUID ids, tokens and status strings are modelled as `String`, as in the source.
- Python floats (monotonic clock readings, response times) are modelled as `ℚ`;
  Python `int()` truncation toward zero is `pyInt`.
- SQLAlchemy tables are lists of rows in stored row order; `.filter(...).first()`
  is `List.find?`; `ORDER BY k` and Python `sorted` are `stableSort` on `k`
  (ties keep row order — the queries specify no secondary sort key).
- Surrogate primary keys and timestamp columns that no engine logic reads
  (`participant_responses.id`, `answered_at`, `sessions.created_at`) are omitted.
- Python list indexing (negative wrap, IndexError) is `pyGet`.
-/

namespace QuizForge

/-- Python `int(x)` conversion: truncation toward zero. -/
def pyInt (q : ℚ) : Int :=
  if q < 0 then -Int.floor (-q) else Int.floor q

/-- Insert `x` into `l` behind every element strictly below it (`le y x` and
not `le x y`), so elements tied with `x` keep their original relative order. -/
def stableInsert {α : Type} (le : α → α → Bool) (x : α) : List α → List α
  | [] => [x]
  | y :: ys => if le y x && !le x y then y :: stableInsert le x ys else x :: y :: ys

/-- Stable sort by the total preorder `le`; for a total preorder the output of
any stable sort is unique, so this models both Python `sorted` (timsort) and
the stored-row-order behaviour of an SQL `ORDER BY` with no secondary key. -/
def stableSort {α : Type} (le : α → α → Bool) : List α → List α
  | [] => []
  | x :: xs => stableInsert le x (stableSort le xs)

/-- Python list indexing `l[i]`: non-negative indexes from the front, negative
indexes wrap from the back, out of range raises (modelled as `none`). -/
def pyGet {α : Type} (l : List α) (i : Int) : Option α :=
  let j : Int := if i < 0 then (l.length : Int) + i else i
  if 0 ≤ j then l.get? j.toNat else none

/-- Row of the `quizzes` table (models.py, class Quiz). -/
structure Quiz where
  id : String
  owner_id : String
  title : String
deriving DecidableEq, Repr

/-- Row of the `questions` table (models.py, class Question). -/
structure Question where
  id : String
  quiz_id : String
  text : String
  image_url : Option String
  order : Int
  time_limit : Int
deriving DecidableEq, Repr

/-- Row of the `answers` table (models.py, class Answer). -/
structure Answer where
  id : String
  question_id : String
  text : String
  is_correct : Bool
  order : Int
deriving DecidableEq, Repr

/-- Row of the `sessions` table (models.py, class Session). -/
structure Session where
  id : String
  quiz_id : String
  owner_id : String
  code : String
  status : String
  current_question_idx : Int
deriving DecidableEq, Repr

/-- Row of the `participants` table (models.py, class Participant). -/
structure Participant where
  id : String
  session_id : String
  nickname : String
  token : String
  score : Int
  joined_at : Nat
deriving DecidableEq, Repr

/-- Row of the `participant_responses` table (models.py, class
ParticipantResponse); unique constraint on (participant_id, question_id). -/
structure ParticipantResponse where
  participant_id : String
  question_id : String
  answer_id : Option String
  is_correct : Bool
  response_time : Option ℚ
  points_awarded : Int
deriving DecidableEq, Repr

/-- The durable store: each table as its list of rows in stored row order. -/
structure DB where
  quizzes : List Quiz
  questions : List Question
  answers : List Answer
  sessions : List Session
  participants : List Participant
  responses : List ParticipantResponse
deriving DecidableEq, Repr

/-- Commit of a mutated session row (SQLAlchemy updates the row in place). -/
def DB.updateSession (db : DB) (s : Session) : DB :=
  { db with sessions := db.sessions.map fun t => if t.id = s.id then s else t }

/-- The questions of a quiz as the handlers load them:
`sorted(quiz.questions, key=lambda q: q.order)` — stable sort by `order`. -/
def questionsOf (db : DB) (quizId : String) : List Question :=
  stableSort (fun a b => a.order ≤ b.order)
    (db.questions.filter fun q => q.quiz_id = quizId)

/-- The answer choices of a question as `_question_payload` iterates them:
`sorted(question.answers, key=lambda a: a.order)` — stable sort by `order`. -/
def answersOf (db : DB) (questionId : String) : List Answer :=
  stableSort (fun a b => a.order ≤ b.order)
    (db.answers.filter fun a => a.question_id = questionId)

/-- Scoring for a correct/incorrect answer, from `_handle_participant_message`
(session.py 863-869): `time_limit = max(question.time_limit, 1)`,
`time_ratio = max(0, 1 - (response_time / time_limit))`,
`points = int(500 + 500 * time_ratio)` when correct, else 0. -/
def computePoints (isCorrect : Bool) (responseTime : ℚ) (timeLimit : Int) : Int :=
  if isCorrect then
    pyInt (500 + 500 * max 0 (1 - responseTime / ((max timeLimit 1 : Int) : ℚ)))
  else 0

/-- A live stream attached to a room (hub.py, dataclass Connection); `wsId`
stands for the identity of the underlying WebSocket object. -/
structure Connection where
  wsId : Nat
  role : String
  participant_id : Option String
  nickname : Option String
deriving DecidableEq, Repr

/-- In-memory Hub state (hub.py, class Hub): `rooms` models the dict
`_rooms` (absent key = `none`), `question_sent_at` models `_question_sent_at`. -/
structure Hub where
  rooms : String → Option (List Connection)
  question_sent_at : String → Option ℚ

/-- Hub.connect (hub.py 45-57): `_room` creates the entry if missing, then the
new connection is appended. -/
def Hub.connect (h : Hub) (sessionId : String) (conn : Connection) : Hub :=
  let room := (h.rooms sessionId).getD []
  { h with rooms := fun s => if s = sessionId then some (room ++ [conn]) else h.rooms s }

/-- Hub.disconnect (hub.py 59-64): `room.remove(conn)` is guarded by
`if conn in room` (first occurrence removed, i.e. `List.erase`); then
`if not room: self._rooms.pop(session_id, None)`.  When the key is absent,
`get` returns a fresh empty list and the pop is a no-op. -/
def Hub.disconnect (h : Hub) (sessionId : String) (conn : Connection) : Hub :=
  match h.rooms sessionId with
  | none => h
  | some room =>
      let room2 := room.erase conn
      if room2.isEmpty then
        { h with rooms := fun s => if s = sessionId then none else h.rooms s }
      else
        { h with rooms := fun s => if s = sessionId then some room2 else h.rooms s }

/-- Hub.get_participant_count (hub.py 108-110). -/
def Hub.get_participant_count (h : Hub) (sessionId : String) : Nat :=
  (((h.rooms sessionId).getD []).filter fun c => c.role = "participant").length

/-- Hub.mark_question_sent (hub.py 112-113): records the current monotonic
clock reading `now`. -/
def Hub.mark_question_sent (h : Hub) (sessionId : String) (now : ℚ) : Hub :=
  { h with question_sent_at := fun s => if s = sessionId then some now else h.question_sent_at s }

/-- Hub.get_elapsed_since_question (hub.py 115-119). -/
def Hub.get_elapsed_since_question (h : Hub) (sessionId : String) (now : ℚ) : Option ℚ :=
  (h.question_sent_at sessionId).map fun sentAt => now - sentAt

/-- One answer object inside an outbound payload; `is_correct = none` means the
JSON field is absent (`_question_payload`, session.py 83-91). -/
structure AnswerPayload where
  id : String
  text : String
  order : Int
  is_correct : Option Bool
deriving DecidableEq, Repr

/-- The question fields of an outbound payload (`_question_payload`,
session.py 81-99). -/
structure QuestionPayload where
  question_id : String
  text : String
  order : Int
  time_limit : Int
  image_url : Option String
  answers : List AnswerPayload
deriving DecidableEq, Repr

/-- _question_payload (session.py 81-99): the `is_correct` key is included on
each answer iff `reveal` is true. -/
def questionPayload (db : DB) (q : Question) (reveal : Bool) : QuestionPayload :=
  { question_id := q.id
    text := q.text
    order := q.order
    time_limit := q.time_limit
    image_url := q.image_url
    answers := (answersOf db q.id).map fun a =>
      { id := a.id, text := a.text, order := a.order
        is_correct := if reveal then some a.is_correct else none } }

/-- One leaderboard entry (`_build_leaderboard`, session.py 68-78). -/
structure LBEntry where
  participant_id : String
  nickname : String
  score : Int
  rank : Nat
deriving DecidableEq, Repr

/-- _build_leaderboard (session.py 68-78): participants of the session ordered
by `score` descending; the query has no secondary sort key, so ties keep
stored row order (stable sort); rank is the 1-based position. -/
def buildLeaderboard (db : DB) (sessionId : String) : List LBEntry :=
  let ps := stableSort (fun a b => b.score ≤ a.score)
    (db.participants.filter fun p => p.session_id = sessionId)
  ps.enum.map fun e =>
    { participant_id := e.2.id, nickname := e.2.nickname, score := e.2.score, rank := e.1 + 1 }

/-- Per-player result inside `answer_revealed` (session.py 776-785). -/
structure PlayerResult where
  participant_id : String
  nickname : String
  is_correct : Bool
  answer_id : Option String
  points_awarded : Int
deriving DecidableEq, Repr

/-- Outbound JSON messages with a `type` field (spec §4.6, session.py). -/
inductive Msg where
  | game_started (total_questions : Nat)
  | new_question (question_idx : Int) (total_questions : Nat) (payload : QuestionPayload)
  | answer_revealed (question_idx : Int) (payload : QuestionPayload)
      (total_responses : Nat) (correct_count : Nat)
      (leaderboard : List LBEntry) (player_results : List PlayerResult)
  | game_ended (leaderboard : List LBEntry)
  | participant_joined (participant_id : String) (nickname : String) (total_participants : Nat)
  | participant_connected (participant_id : String) (nickname : String) (online_count : Nat)
  | participant_disconnected (participant_id : String) (online_count : Nat)
  | answer_submitted (is_correct : Bool) (points_awarded : Int) (total_score : Int)
  | answer_received (answered_count : Nat) (total_participants : Nat) (participant_id : String)
  | error (message : String)
deriving DecidableEq, Repr

/-- Delivery target of an outbound message. -/
inductive Target where
  | all
  | admin
  | one (participant_id : String)
deriving DecidableEq, Repr

/-- An observable side effect of a handler: a Hub delivery, or the
`hub.mark_question_sent(session_id)` call. -/
inductive Effect where
  | send (t : Target) (m : Msg)
  | markQuestionSent
deriving DecidableEq, Repr

/-- _handle_admin_message (session.py 699-810).  The session and quiz are read
fresh; a missing session returns silently, a missing quiz raises on
`quiz.questions` and the generic exception handler rolls back (no effect).
Each branch mirrors the source order: persisted mutation and commit first,
then question lookup (an IndexError after the commit leaves the committed
state in place but emits nothing), then the broadcasts. -/
def handleAdminMessage (db : DB) (sessionId : String) (msgType : String) :
    DB × List Effect :=
  match db.sessions.find? (fun s => s.id = sessionId) with
  | none => (db, [])
  | some session =>
    match db.quizzes.find? (fun qz => qz.id = session.quiz_id) with
    | none => (db, [])
    | some _ =>
      let questions := questionsOf db session.quiz_id
      if msgType = "start_game" then
        if session.status ≠ "lobby" then (db, [])
        else
          let db2 := db.updateSession { session with status := "active", current_question_idx := 0 }
          match pyGet questions 0 with
          | none => (db2, [])
          | some question =>
            (db2,
             [.send .all (.game_started questions.length),
              .send .all (.new_question 0 questions.length (questionPayload db question false)),
              .markQuestionSent])
      else if msgType = "next_question" then
        if session.status ≠ "active" ∧ session.status ≠ "revealing" then (db, [])
        else
          let nextIdx := session.current_question_idx + 1
          if (questions.length : Int) ≤ nextIdx then (db, [])
          else
            let db2 := db.updateSession { session with status := "active", current_question_idx := nextIdx }
            match pyGet questions nextIdx with
            | none => (db2, [])
            | some question =>
              (db2,
               [.send .all (.new_question nextIdx questions.length (questionPayload db question false)),
                .markQuestionSent])
      else if msgType = "reveal_answer" then
        if session.status ≠ "active" ∧ session.status ≠ "revealing" then (db, [])
        else
          let db2 := db.updateSession { session with status := "revealing" }
          let idx := session.current_question_idx
          match pyGet questions idx with
          | none => (db2, [])
          | some question =>
            let allParticipants := db2.participants.filter fun p => p.session_id = session.id
            let responsesForQ := db2.responses.filter fun r =>
              r.question_id = question.id ∧
                db2.participants.any fun p => p.id = r.participant_id ∧ p.session_id = session.id
            let playerResults : List PlayerResult := allParticipants.map fun p =>
              match responsesForQ.find? (fun r => r.participant_id = p.id) with
              | some r =>
                { participant_id := p.id, nickname := p.nickname, is_correct := r.is_correct
                  answer_id := r.answer_id, points_awarded := r.points_awarded }
              | none =>
                { participant_id := p.id, nickname := p.nickname, is_correct := false
                  answer_id := none, points_awarded := 0 }
            (db2,
             [.send .all (.answer_revealed idx (questionPayload db question true)
                responsesForQ.length (responsesForQ.filter fun r => r.is_correct).length
                (buildLeaderboard db2 sessionId) playerResults)])
      else if msgType = "end_game" then
        let db2 := db.updateSession { session with status := "finished" }
        (db2, [.send .all (.game_ended (buildLeaderboard db2 sessionId))])
      else (db, [])

/-- _handle_participant_message, branch `submit_answer` (session.py 817-921).
`answerId = none` models `data.get("answer_id")` being absent or not a string;
`serverElapsed` is the value of `hub.get_elapsed_since_question(session_id)`.
The duplicate (participant, question) check models the UNIQUE constraint
raising IntegrityError at commit, which rolls back both the insert and the
score increment.  A missing participant row raises on `participant.score`
before the commit: rollback, no message. -/
def handleParticipantMessage (db : DB) (sessionId participantId : String)
    (msgType : String) (answerId : Option String) (serverElapsed : Option ℚ) :
    DB × List Effect :=
  match db.sessions.find? (fun s => s.id = sessionId) with
  | none => (db, [])
  | some session =>
    if msgType = "submit_answer" then
      if session.status ≠ "active" then (db, [])
      else if answerId.getD "" = "" then
        (db, [.send (.one participantId)
          (.error "answer_id is required and must be a non-empty string")])
      else
        let aid := answerId.getD ""
        let responseTime := serverElapsed.getD 0
        match db.quizzes.find? (fun qz => qz.id = session.quiz_id) with
        | none => (db, [])
        | some _ =>
          let questions := questionsOf db session.quiz_id
          if session.current_question_idx < 0 ∨
              (questions.length : Int) ≤ session.current_question_idx then (db, [])
          else
            match questions.get? session.current_question_idx.toNat with
            | none => (db, [])
            | some question =>
              let responseTime2 := min responseTime (question.time_limit : ℚ)
              match db.answers.find? (fun a => a.id = aid ∧ a.question_id = question.id) with
              | none => (db, [.send (.one participantId) (.error "Invalid answer")])
              | some answer =>
                let points := computePoints answer.is_correct responseTime2 question.time_limit
                match db.participants.find? (fun p => p.id = participantId) with
                | none => (db, [])
                | some participant =>
                  if db.responses.any (fun r =>
                      r.participant_id = participantId ∧ r.question_id = question.id) then
                    (db, [.send (.one participantId) (.error "Already answered this question")])
                  else
                    let newResponse : ParticipantResponse :=
                      { participant_id := participantId, question_id := question.id
                        answer_id := some aid, is_correct := answer.is_correct
                        response_time := some responseTime2, points_awarded := points }
                    let db2 : DB :=
                      { db with
                        responses := db.responses ++ [newResponse]
                        participants := db.participants.map fun p =>
                          if p.id = participantId then { p with score := p.score + points } else p }
                    let totalParticipants :=
                      (db2.participants.filter fun p => p.session_id = session.id).length
                    let answeredCount :=
                      (db2.responses.filter fun r =>
                        r.question_id = question.id ∧
                          db2.participants.any fun p =>
                            p.id = r.participant_id ∧ p.session_id = session.id).length
                    (db2,
                     [.send (.one participantId)
                        (.answer_submitted answer.is_correct points (participant.score + points)),
                      .send .admin
                        (.answer_received answeredCount totalParticipants participantId)])
    else (db, [])

/-- Python `str.upper()` restricted to ASCII, which covers session codes
(6 uppercase alphanumeric characters) and their case-insensitive input. -/
def pyUpper (s : String) : String :=
  ⟨s.data.map fun c =>
    if 97 ≤ c.toNat ∧ c.toNat ≤ 122 then Char.ofNat (c.toNat - 32) else c⟩

/-- Result of POST /api/sessions/join (session.py 438-502). -/
inductive JoinResult where
  | notFound
  | finished
  | alreadyStarted
  | duplicateNickname
  | ok (id : String) (nickname : String) (score : Int) (joined_at : Nat)
      (session_id : String) (token : String)
deriving DecidableEq, Repr

/-- join_session (session.py 438-502).  `freshPid`, `freshToken` and `now`
model the generated participant UUID, the `secrets.token_urlsafe(48)` token
and the join timestamp for the insert path.  In this sequential model the
UNIQUE race caught via IntegrityError cannot fire beyond the proactive
duplicate check. -/
def joinSession (db : DB) (code nickname : String)
    (freshPid freshToken : String) (now : Nat) :
    DB × JoinResult × List Effect :=
  match db.sessions.find? (fun s => s.code = pyUpper code) with
  | none => (db, .notFound, [])
  | some session =>
    if session.status = "finished" then (db, .finished, [])
    else
      let existing := db.participants.find? fun p =>
        p.session_id = session.id ∧ p.nickname = nickname
      if session.status = "active" ∨ session.status = "revealing" then
        match existing with
        | none => (db, .alreadyStarted, [])
        | some p =>
          (db, .ok p.id p.nickname p.score p.joined_at session.id p.token, [])
      else
        match existing with
        | some _ => (db, .duplicateNickname, [])
        | none =>
          let participant : Participant :=
            { id := freshPid, session_id := session.id, nickname := nickname
              token := freshToken, score := 0, joined_at := now }
          let db2 : DB := { db with participants := db.participants ++ [participant] }
          let total := (db2.participants.filter fun p => p.session_id = session.id).length
          (db2, .ok freshPid nickname 0 now session.id freshToken,
           [.send .admin (.participant_joined freshPid nickname total)])

/-- Outcome of the stream auth step in ws_session. -/
inductive AuthOutcome where
  | closed (code : Nat)
  | attached (pid : String) (nickname : String)
deriving DecidableEq, Repr

/-- Participant branch of the ws_session auth step (session.py 585-608),
entered after the session row was found and `role == "participant"`.
`pid`/`ptoken` are `none` when the JSON field is absent; `if not pid or not
ptoken` also treats the empty string as missing (close 4001).  On a match the
stream is attached to the Hub and the presenter is told; otherwise close 4004
with no attachment and no message. -/
def authParticipantStream (db : DB) (sessionId : String)
    (pid ptoken : Option String) (hub : Hub) (wsId : Nat) :
    AuthOutcome × Hub × List Effect :=
  if pid.getD "" = "" ∨ ptoken.getD "" = "" then (.closed 4001, hub, [])
  else
    match db.participants.find? (fun p =>
        some p.id = pid ∧ p.session_id = sessionId ∧ some p.token = ptoken) with
    | none => (.closed 4004, hub, [])
    | some participant =>
      let hub2 := hub.connect sessionId
        { wsId := wsId, role := "participant"
          participant_id := pid, nickname := some participant.nickname }
      (.attached (pid.getD "") participant.nickname, hub2,
       [.send .admin (.participant_connected (pid.getD "") participant.nickname
          (hub2.get_participant_count sessionId))])

/-- Late-joiner synchronization for a freshly authenticated participant stream
(ws_session, session.py 617-641): when the session is active or revealing it
receives `game_started` and then `new_question` for the current index with
`reveal` true iff the status is `revealing`.  A missing quiz raises before
anything is sent; an out-of-range index sends only `game_started`. -/
def lateJoinSync (db : DB) (sessionId : String) : List Msg :=
  match db.sessions.find? (fun s => s.id = sessionId) with
  | none => []
  | some sess =>
    if sess.status = "active" ∨ sess.status = "revealing" then
      match db.quizzes.find? (fun qz => qz.id = sess.quiz_id) with
      | none => []
      | some _ =>
        let questions := questionsOf db sess.quiz_id
        let base := [Msg.game_started questions.length]
        let idx := sess.current_question_idx
        if 0 ≤ idx ∧ idx < (questions.length : Int) then
          match questions.get? idx.toNat with
          | none => base
          | some question =>
            base ++ [Msg.new_question idx questions.length
              (questionPayload db question (sess.status = "revealing"))]
        else base
    else []

/-- Result of POST /api/sessions/{id}/finish (session.py 190-209). -/
inductive FinishResult where
  | notFound
  | notOwner
  | alreadyFinished
  | finished (id : String)
deriving DecidableEq, Repr

/-- force_finish_session (session.py 190-209): 404 when missing, 403 when not
the owner, 400 when the status is already "finished"; otherwise set the status
to "finished", commit, and broadcast `game_ended` with the leaderboard. -/
def forceFinishSession (db : DB) (sessionId userId : String) :
    DB × FinishResult × List Effect :=
  match db.sessions.find? (fun s => s.id = sessionId) with
  | none => (db, .notFound, [])
  | some session =>
    if session.owner_id ≠ userId then (db, .notOwner, [])
    else if session.status = "finished" then (db, .alreadyFinished, [])
    else
      let db2 := db.updateSession { session with status := "finished" }
      (db2, .finished session.id,
       [.send .all (.game_ended (buildLeaderboard db2 sessionId))])

/-- Fixture quiz: two questions of 30 seconds with one correct choice each. -/
def exQuiz : Quiz := { id := "QZ", owner_id := "u1", title := "Demo" }

/-- Fixture question 1 (order 0, 30 s). -/
def exQ1 : Question :=
  { id := "q1", quiz_id := "QZ", text := "Q one", image_url := none, order := 0, time_limit := 30 }

/-- Fixture question 2 (order 1, 30 s). -/
def exQ2 : Question :=
  { id := "q2", quiz_id := "QZ", text := "Q two", image_url := none, order := 1, time_limit := 30 }

/-- Fixture answers: a1 (correct) and a2 belong to q1; a3 (correct) and a4 to q2. -/
def exAnswers : List Answer :=
  [ { id := "a1", question_id := "q1", text := "yes", is_correct := true, order := 0 },
    { id := "a2", question_id := "q1", text := "no", is_correct := false, order := 1 },
    { id := "a3", question_id := "q2", text := "yes", is_correct := true, order := 0 },
    { id := "a4", question_id := "q2", text := "no", is_correct := false, order := 1 } ]

/-- Fixture participant alice in session S. -/
def exP1 : Participant :=
  { id := "p1", session_id := "S", nickname := "alice", token := "tok1", score := 0, joined_at := 0 }

/-- Fixture store holding one session S over the fixture quiz in the given
status and index, with alice joined and no responses. -/
def mkDB (status : String) (idx : Int) : DB :=
  { quizzes := [exQuiz]
    questions := [exQ1, exQ2]
    answers := exAnswers
    sessions := [{ id := "S", quiz_id := "QZ", owner_id := "u1", code := "ABC123",
                   status := status, current_question_idx := idx }]
    participants := [exP1]
    responses := [] }

/-- C10: POST /api/sessions/{id}/finish on a session whose status is already
"finished" is rejected with HTTP 400 (alreadyFinished), leaves the store
unchanged, and broadcasts nothing. -/
theorem c10_refinish_rejected (db : DB) (sid uid : String) (s : Session)
    (hfind : db.sessions.find? (fun t => t.id = sid) = some s)
    (howner : s.owner_id = uid)
    (hstatus : s.status = "finished") :
    forceFinishSession db sid uid = (db, FinishResult.alreadyFinished, []) := by
  unfold forceFinishSession
  rw [hfind]
  simp [howner, hstatus]

/-- Witness for C10 at a concrete finished session. -/
theorem c10_refinish_rejected_witness :
    forceFinishSession (mkDB "finished" 1) "S" "u1" =
      (mkDB "finished" 1, FinishResult.alreadyFinished, []) :=
  c10_refinish_rejected (mkDB "finished" 1) "S" "u1"
    { id := "S", quiz_id := "QZ", owner_id := "u1", code := "ABC123",
      status := "finished", current_question_idx := 1 }
    (by decide) (by decide) (by decide)

/-- At most one response row per (participant, question): the invariant the
UNIQUE constraint `uq_participant_question` enforces (models.py 166-179). -/
def DB.atMostOneResponse (db : DB) : Prop :=
  db.responses.Pairwise fun r1 r2 =>
    ¬(r1.participant_id = r2.participant_id ∧ r1.question_id = r2.question_id)

/-- Lexicographic strict order on character sequences by code point. -/
def charListLt : List Char → List Char → Bool
  | [], [] => false
  | [], _ :: _ => true
  | _ :: _, [] => false
  | c :: cs, d :: ds =>
    if c.toNat < d.toNat then true
    else if d.toNat < c.toNat then false
    else charListLt cs ds

/-- Lexicographic strict order on strings by code point. -/
def strLt (a b : String) : Bool := charListLt a.data b.data

/-- Modelled from the spec for comparison with `buildLeaderboard` (C5): the
claimed order — adjacent entries have strictly descending score, or equal
score with participant_id strictly ascending. -/
def specLeaderboardOrdered : List LBEntry → Bool
  | [] => true
  | [_] => true
  | e1 :: e2 :: rest =>
    (decide (e2.score < e1.score) ||
      (decide (e1.score = e2.score) && strLt e1.participant_id e2.participant_id))
    && specLeaderboardOrdered (e2 :: rest)

/-- True unless the message is a `new_question` whose answers carry an
`is_correct` field. -/
def msgHidesCorrectness : Msg → Bool
  | .new_question _ _ p => p.answers.all fun a => a.is_correct = none
  | _ => true

/-- True unless the message is an `answer_revealed` with an answer missing the
`is_correct` field. -/
def msgRevealsCorrectness : Msg → Bool
  | .answer_revealed _ p _ _ _ _ => p.answers.all fun a => a.is_correct.isSome
  | _ => true

/-- True unless the message is a `new_question` with an answer missing the
`is_correct` field. -/
def msgNewQuestionRevealed : Msg → Bool
  | .new_question _ _ p => p.answers.all fun a => a.is_correct.isSome
  | _ => true

/-- Lifts `msgHidesCorrectness` to effects. -/
def effectHidesCorrectness : Effect → Bool
  | .send _ m => msgHidesCorrectness m
  | .markQuestionSent => true

/-- Lifts `msgRevealsCorrectness` to effects. -/
def effectRevealsCorrectness : Effect → Bool
  | .send _ m => msgRevealsCorrectness m
  | .markQuestionSent => true

/-- Fixture store in which alice already answered q1. -/
def exDB4 : DB :=
  { mkDB "active" 0 with
    responses := [{ participant_id := "p1", question_id := "q1", answer_id := some "a1",
                    is_correct := true, response_time := some 3, points_awarded := 950 }] }

/-- Fixture store with two tied participants, stored with the larger id first. -/
def exDB5 : DB :=
  { mkDB "active" 0 with
    participants :=
      [ { id := "pb", session_id := "S", nickname := "bob", token := "tokb",
          score := 10, joined_at := 0 },
        { id := "pa", session_id := "S", nickname := "amy", token := "toka",
          score := 10, joined_at := 1 } ] }

/-- The same participants as `exDB5`, stored in the opposite row order. -/
def exDB5swap : DB :=
  { mkDB "active" 0 with
    participants :=
      [ { id := "pa", session_id := "S", nickname := "amy", token := "toka",
          score := 10, joined_at := 1 },
        { id := "pb", session_id := "S", nickname := "bob", token := "tokb",
          score := 10, joined_at := 0 } ] }

/-- Fixture connection of participant p1. -/
def exConn1 : Connection :=
  { wsId := 1, role := "participant", participant_id := some "p1", nickname := some "alice" }

/-- Second fixture connection of the presenter. -/
def exConn2 : Connection :=
  { wsId := 2, role := "admin", participant_id := none, nickname := none }

/-- Fixture hub: session S has one participant stream and a marked
question-sent timestamp; session T has the presenter stream and no timestamp. -/
def exHub : Hub :=
  { rooms := fun s => if s = "S" then some [exConn1] else if s = "T" then some [exConn2] else none
    question_sent_at := fun s => if s = "S" then some 5 else none }

/-- Fixture hub with two streams in session S. -/
def exHub2 : Hub :=
  { rooms := fun s => if s = "S" then some [exConn1, exConn2] else none
    question_sent_at := fun s => if s = "S" then some 5 else none }

/-- Empty fixture hub. -/
def exHubEmpty : Hub :=
  { rooms := fun _ => none, question_sent_at := fun _ => none }

theorem pyInt_eq_floor (q : ℚ) (h : 0 ≤ q) : pyInt q = Int.floor q := by
  unfold pyInt
  rw [if_neg (not_lt.mpr h)]

theorem computePoints_true_spec (rt : ℚ) (tl : Int) (hrt : 0 ≤ rt) :
    computePoints true rt tl =
      Int.floor ((500 : ℚ) + 500 * max 0 (1 - rt / ((max tl 1 : Int) : ℚ)))
    ∧ 500 ≤ computePoints true rt tl ∧ computePoints true rt tl ≤ 1000 := by
  have htq : (1 : ℚ) ≤ ((max tl 1 : Int) : ℚ) := by exact_mod_cast le_max_right tl 1
  have hfrac0 : (0 : ℚ) ≤ max 0 (1 - rt / ((max tl 1 : Int) : ℚ)) := le_max_left _ _
  have hfrac1 : max 0 (1 - rt / ((max tl 1 : Int) : ℚ)) ≤ 1 := by
    apply max_le (by norm_num)
    have hdiv : (0 : ℚ) ≤ rt / ((max tl 1 : Int) : ℚ) := div_nonneg hrt (by linarith)
    linarith
  have hfl : computePoints true rt tl =
      Int.floor ((500 : ℚ) + 500 * max 0 (1 - rt / ((max tl 1 : Int) : ℚ))) := by
    show pyInt _ = _
    exact pyInt_eq_floor _ (by linarith)
  refine ⟨hfl, ?_, ?_⟩
  · rw [hfl]
    have hv : (500 : ℚ) ≤ 500 + 500 * max 0 (1 - rt / ((max tl 1 : Int) : ℚ)) := by
      linarith
    exact Int.le_floor.mpr (by exact_mod_cast hv)
  · rw [hfl]
    have hle : Int.floor ((500 : ℚ) + 500 * max 0 (1 - rt / ((max tl 1 : Int) : ℚ)))
        ≤ Int.floor ((1000 : ℚ)) := Int.floor_le_floor (by linarith)
    have h1000 : Int.floor ((1000 : ℚ)) = 1000 := by
      exact_mod_cast @Int.floor_intCast ℚ _ _ 1000
    omega

theorem computePoints_true_at_zero (tl : Int) : computePoints true 0 tl = 1000 := by
  have h : (500 : ℚ) + 500 * max 0 (1 - 0 / ((max tl 1 : Int) : ℚ)) = 1000 := by
    rw [zero_div]
    norm_num
  show pyInt _ = _
  rw [h, pyInt_eq_floor _ (by norm_num)]
  exact_mod_cast @Int.floor_intCast ℚ _ _ 1000

theorem computePoints_true_at_limit (tl : Int) (htl : 1 ≤ tl) :
    computePoints true (tl : ℚ) tl = 500 := by
  have hmax : max tl 1 = tl := max_eq_left htl
  have hne : ((tl : ℚ)) ≠ 0 := by
    have : (1 : ℚ) ≤ (tl : ℚ) := by exact_mod_cast htl
    linarith
  have h : (500 : ℚ) + 500 * max 0 (1 - (tl : ℚ) / ((max tl 1 : Int) : ℚ)) = 500 := by
    rw [hmax, div_self hne]
    norm_num
  show pyInt _ = _
  rw [h, pyInt_eq_floor _ (by norm_num)]
  exact_mod_cast @Int.floor_intCast ℚ _ _ 500

theorem computePoints_three_of_thirty : computePoints true 3 30 = 950 := by
  have hc : ((max (30 : Int) 1 : Int) : ℚ) = 30 := by norm_num
  have hv : (500 : ℚ) + 500 * max 0 (1 - 3 / ((max (30 : Int) 1 : Int) : ℚ)) = 950 := by
    rw [hc, show (1 : ℚ) - 3 / 30 = 9 / 10 by norm_num,
      max_eq_right (by norm_num : (0 : ℚ) ≤ 9 / 10)]
    norm_num
  show pyInt _ = _
  rw [hv, pyInt_eq_floor _ (by norm_num)]
  exact_mod_cast @Int.floor_intCast ℚ _ _ 950

/-- C1: an accepted submit_answer while the session is active, for an answer of
the current question, awards 0 points when incorrect; when correct, with
elapsed = `get_elapsed_since_question` (0 when absent) clamped to at most the
question's time limit, it awards floor(500 + 500·max(0, 1 − elapsed/max(tl,1)))
points, always in [500, 1000], with 1000 at elapsed = 0 and 500 at
elapsed ≥ tl. -/
theorem c1_speed_scoring
    (db : DB) (sid pid aid : String) (elapsedOpt : Option ℚ)
    (s : Session) (qz : Quiz) (q : Question) (a : Answer) (part : Participant)
    (hfind : db.sessions.find? (fun t => t.id = sid) = some s)
    (hstatus : s.status = "active")
    (haid : ¬aid = "")
    (hquiz : db.quizzes.find? (fun z => z.id = s.quiz_id) = some qz)
    (h0 : 0 ≤ s.current_question_idx)
    (hlen : s.current_question_idx < ((questionsOf db s.quiz_id).length : Int))
    (hq : (questionsOf db s.quiz_id).get? s.current_question_idx.toNat = some q)
    (ha : db.answers.find? (fun x => x.id = aid ∧ x.question_id = q.id) = some a)
    (hpart : db.participants.find? (fun p => p.id = pid) = some part)
    (hnodup : db.responses.any
      (fun r => r.participant_id = pid ∧ r.question_id = q.id) = false)
    (helapsed : 0 ≤ elapsedOpt.getD 0)
    (htl : 1 ≤ q.time_limit) :
    (handleParticipantMessage db sid pid "submit_answer" (some aid) elapsedOpt).1.responses
      = db.responses ++
        [{ participant_id := pid, question_id := q.id, answer_id := some aid,
           is_correct := a.is_correct,
           response_time := some (min (elapsedOpt.getD 0) (q.time_limit : ℚ)),
           points_awarded :=
             computePoints a.is_correct (min (elapsedOpt.getD 0) (q.time_limit : ℚ))
               q.time_limit }]
    ∧ (a.is_correct = false →
        computePoints a.is_correct (min (elapsedOpt.getD 0) (q.time_limit : ℚ))
          q.time_limit = 0)
    ∧ (a.is_correct = true →
        computePoints a.is_correct (min (elapsedOpt.getD 0) (q.time_limit : ℚ))
            q.time_limit
          = Int.floor ((500 : ℚ) + 500 * max 0
              (1 - min (elapsedOpt.getD 0) (q.time_limit : ℚ) /
                ((max q.time_limit 1 : Int) : ℚ)))
        ∧ 500 ≤ computePoints a.is_correct
            (min (elapsedOpt.getD 0) (q.time_limit : ℚ)) q.time_limit
        ∧ computePoints a.is_correct
            (min (elapsedOpt.getD 0) (q.time_limit : ℚ)) q.time_limit ≤ 1000
        ∧ (elapsedOpt.getD 0 = 0 →
            computePoints a.is_correct
              (min (elapsedOpt.getD 0) (q.time_limit : ℚ)) q.time_limit = 1000)
        ∧ ((q.time_limit : ℚ) ≤ elapsedOpt.getD 0 →
            computePoints a.is_correct
              (min (elapsedOpt.getD 0) (q.time_limit : ℚ)) q.time_limit = 500)) := by
  have htlq : (0 : ℚ) ≤ (q.time_limit : ℚ) := by exact_mod_cast le_trans Int.one_nonneg htl
  have hrt0 : 0 ≤ min (elapsedOpt.getD 0) (q.time_limit : ℚ) := le_min helapsed htlq
  refine ⟨?_, ?_, ?_⟩
  · have hg : ¬(s.current_question_idx < 0 ∨
        ((questionsOf db s.quiz_id).length : Int) ≤ s.current_question_idx) := by
      push_neg
      exact ⟨h0, hlen⟩
    have hq2 : (questionsOf db s.quiz_id)[s.current_question_idx.toNat]? = some q := by
      simpa using hq
    have ha2 : db.answers.find?
        (fun x => decide (x.id = aid) && decide (x.question_id = q.id)) = some a := by
      simpa using ha
    have hnodup2 : ¬∃ x ∈ db.responses,
        x.participant_id = pid ∧ x.question_id = q.id := by
      simpa using hnodup
    unfold handleParticipantMessage
    rw [hfind]
    simp [hstatus, haid, hquiz, hg, hq2, ha2, hpart, hnodup2]
  · intro h
    simp [computePoints, h]
  · intro h
    rw [h]
    obtain ⟨hfl, hlo, hhi⟩ :=
      computePoints_true_spec (min (elapsedOpt.getD 0) (q.time_limit : ℚ)) q.time_limit hrt0
    refine ⟨hfl, hlo, hhi, ?_, ?_⟩
    · intro hz
      rw [hz, min_eq_left htlq]
      exact computePoints_true_at_zero q.time_limit
    · intro hge
      rw [min_eq_right hge]
      exact computePoints_true_at_limit q.time_limit htl

/-- Witness for C1: alice answers q1 correctly after 3 s of a 30 s limit and
the inserted response is awarded floor(500 + 500·(1 − 3/30)) = 950 points. -/
theorem c1_speed_scoring_witness :
    (handleParticipantMessage (mkDB "active" 0) "S" "p1" "submit_answer"
        (some "a1") (some 3)).1.responses
      = [{ participant_id := "p1", question_id := "q1", answer_id := some "a1",
           is_correct := true, response_time := some 3, points_awarded := 950 }] := by
  have h := c1_speed_scoring (mkDB "active" 0) "S" "p1" "a1" (some 3)
    { id := "S", quiz_id := "QZ", owner_id := "u1", code := "ABC123",
      status := "active", current_question_idx := 0 }
    exQuiz exQ1
    { id := "a1", question_id := "q1", text := "yes", is_correct := true, order := 0 }
    exP1
    (by decide) (by decide) (by decide) (by decide) (by decide) (by decide)
    (by decide) (by decide) (by decide) (by decide) (by decide) (by decide)
  rw [h.1]
  norm_num [mkDB, exQ1, min_def, computePoints_three_of_thirty]

/-- C2: the presenter commands start_game, next_question and reveal_answer
change the persisted session only along the legal transitions — start_game
moves lobby to active with index 0; next_question moves active or revealing to
active with index+1 and is rejected with state unchanged and no broadcast when
index+1 is not below the question count; reveal_answer moves active or
revealing to revealing; issued from any other state each command is a no-op
that leaves the persisted store unchanged and broadcasts nothing. -/
theorem c2_admin_state_machine (db : DB) (sid : String) (s : Session) (qz : Quiz)
    (hfind : db.sessions.find? (fun t => t.id = sid) = some s)
    (hquiz : db.quizzes.find? (fun z => z.id = s.quiz_id) = some qz) :
    (s.status = "lobby" →
      (handleAdminMessage db sid "start_game").1 =
        db.updateSession { s with status := "active", current_question_idx := 0 })
    ∧ (s.status ≠ "lobby" → handleAdminMessage db sid "start_game" = (db, []))
    ∧ (s.status = "active" ∨ s.status = "revealing" →
        (s.current_question_idx + 1 < ((questionsOf db s.quiz_id).length : Int) →
          (handleAdminMessage db sid "next_question").1 =
            db.updateSession
              { s with status := "active", current_question_idx := s.current_question_idx + 1 })
        ∧ (((questionsOf db s.quiz_id).length : Int) ≤ s.current_question_idx + 1 →
          handleAdminMessage db sid "next_question" = (db, [])))
    ∧ (¬(s.status = "active" ∨ s.status = "revealing") →
        handleAdminMessage db sid "next_question" = (db, []))
    ∧ (s.status = "active" ∨ s.status = "revealing" →
        (handleAdminMessage db sid "reveal_answer").1 =
          db.updateSession { s with status := "revealing" })
    ∧ (¬(s.status = "active" ∨ s.status = "revealing") →
        handleAdminMessage db sid "reveal_answer" = (db, [])) := by
  refine ⟨?_, ?_, ?_, ?_, ?_, ?_⟩
  · intro h
    unfold handleAdminMessage
    rw [hfind]
    cases hpg : pyGet (questionsOf db s.quiz_id) 0 <;>
      simp [hquiz, h, hpg]
  · intro h
    unfold handleAdminMessage
    rw [hfind]
    simp [hquiz, h]
  · intro h
    have hok : ¬(s.status ≠ "active" ∧ s.status ≠ "revealing") := by
      rcases h with h | h <;> simp [h]
    constructor
    · intro hlt
      unfold handleAdminMessage
      rw [hfind]
      have hnle : ¬(((questionsOf db s.quiz_id).length : Int) ≤ s.current_question_idx + 1) :=
        not_le.mpr hlt
      cases hpg : pyGet (questionsOf db s.quiz_id) (s.current_question_idx + 1) <;>
        simp [hquiz, hok, hnle, hpg]
    · intro hge
      unfold handleAdminMessage
      rw [hfind]
      simp [hquiz, hok, hge]
  · intro h
    have hbad : s.status ≠ "active" ∧ s.status ≠ "revealing" := by
      push_neg at h
      exact h
    unfold handleAdminMessage
    rw [hfind]
    simp [hquiz, hbad.1, hbad.2]
  · intro h
    have hok : ¬(s.status ≠ "active" ∧ s.status ≠ "revealing") := by
      rcases h with h | h <;> simp [h]
    unfold handleAdminMessage
    rw [hfind]
    cases hpg : pyGet (questionsOf db s.quiz_id) s.current_question_idx <;>
      simp [hquiz, hok, hpg]
  · intro h
    have hbad : s.status ≠ "active" ∧ s.status ≠ "revealing" := by
      push_neg at h
      exact h
    unfold handleAdminMessage
    rw [hfind]
    simp [hquiz, hbad.1, hbad.2]

/-- Witness for C2: start_game on a lobby session activates it at index 0. -/
theorem c2_admin_state_machine_witness :
    (handleAdminMessage (mkDB "lobby" (-1)) "S" "start_game").1 =
      (mkDB "lobby" (-1)).updateSession
        { id := "S", quiz_id := "QZ", owner_id := "u1", code := "ABC123",
          status := "active", current_question_idx := 0 } :=
  (c2_admin_state_machine (mkDB "lobby" (-1)) "S"
    { id := "S", quiz_id := "QZ", owner_id := "u1", code := "ABC123",
      status := "lobby", current_question_idx := -1 }
    exQuiz (by decide) (by decide)).1 rfl

/-- C3 counterexample: end_game on an already finished session is not rejected
— it broadcasts `game_ended` again, contradicting the claim that no further
game_ended broadcast is emitted. -/
theorem c3_end_game_counterexample :
    (handleAdminMessage (mkDB "finished" 1) "S" "end_game").2 =
      [Effect.send Target.all (Msg.game_ended
        [{ participant_id := "p1", nickname := "alice", score := 0, rank := 1 }])]
    ∧ (handleAdminMessage (mkDB "finished" 1) "S" "end_game").2 ≠ [] := by
  constructor <;> decide

/-- C3 amended: end_game is accepted in every state once the session and quiz
rows load: it always sets the status to "finished" and always broadcasts
`game_ended`; on an already finished session the persisted store is unchanged
(state-level idempotence) but the broadcast is re-emitted. -/
theorem c3_end_game_always_finishes (db : DB) (sid : String) (s : Session) (qz : Quiz)
    (hfind : db.sessions.find? (fun t => t.id = sid) = some s)
    (hquiz : db.quizzes.find? (fun z => z.id = s.quiz_id) = some qz)
    (hkey : ∀ t ∈ db.sessions, t.id = s.id → t = s) :
    handleAdminMessage db sid "end_game" =
      (db.updateSession { s with status := "finished" },
       [Effect.send Target.all (Msg.game_ended
         (buildLeaderboard (db.updateSession { s with status := "finished" }) sid))])
    ∧ (s.status = "finished" → (handleAdminMessage db sid "end_game").1 = db) := by
  have hmain : handleAdminMessage db sid "end_game" =
      (db.updateSession { s with status := "finished" },
       [Effect.send Target.all (Msg.game_ended
         (buildLeaderboard (db.updateSession { s with status := "finished" }) sid))]) := by
    unfold handleAdminMessage
    rw [hfind]
    simp [hquiz]
  refine ⟨hmain, ?_⟩
  intro h
  rw [hmain]
  have hs : { s with status := "finished" } = s := by rw [← h]
  rw [hs]
  show db.updateSession s = db
  unfold DB.updateSession
  have hmap : db.sessions.map (fun t => if t.id = s.id then s else t) = db.sessions := by
    have hcongr : db.sessions.map (fun t => if t.id = s.id then s else t) =
        db.sessions.map id := by
      apply List.map_congr_left
      intro t ht
      by_cases hid : t.id = s.id
      · rw [if_pos hid, hkey t ht hid]
        rfl
      · rw [if_neg hid]
        rfl
    rw [hcongr, List.map_id]
  rw [hmap]

/-- Witness for C3 amended: repeated end_game leaves the finished store as is. -/
theorem c3_end_game_always_finishes_witness :
    (handleAdminMessage (mkDB "finished" 1) "S" "end_game").1 = mkDB "finished" 1 :=
  (c3_end_game_always_finishes (mkDB "finished" 1) "S"
    { id := "S", quiz_id := "QZ", owner_id := "u1", code := "ABC123",
      status := "finished", current_question_idx := 1 }
    exQuiz (by decide) (by decide) (by decide)).2 rfl

/-- C4: the (participant, question) uniqueness is preserved by every
submit_answer, and a second submit_answer from the same participant for the
same question is answered with an already-answered error to that participant
only, with no new response row and no score change (the increment alongside
the failed insert is rolled back). -/
theorem c4_at_most_one_response
    (db : DB) (sid pid aid : String) (elapsedOpt : Option ℚ)
    (s : Session) (qz : Quiz) (q : Question) (a : Answer) (part : Participant)
    (hfind : db.sessions.find? (fun t => t.id = sid) = some s)
    (hstatus : s.status = "active")
    (haid : ¬aid = "")
    (hquiz : db.quizzes.find? (fun z => z.id = s.quiz_id) = some qz)
    (h0 : 0 ≤ s.current_question_idx)
    (hlen : s.current_question_idx < ((questionsOf db s.quiz_id).length : Int))
    (hq : (questionsOf db s.quiz_id).get? s.current_question_idx.toNat = some q)
    (ha : db.answers.find? (fun x => x.id = aid ∧ x.question_id = q.id) = some a)
    (hpart : db.participants.find? (fun p => p.id = pid) = some part)
    (hdup : db.responses.any
      (fun r => r.participant_id = pid ∧ r.question_id = q.id) = true) :
    (∀ db2 sid2 pid2 mt aidOpt e2, DB.atMostOneResponse db2 →
        DB.atMostOneResponse (handleParticipantMessage db2 sid2 pid2 mt aidOpt e2).1)
    ∧ handleParticipantMessage db sid pid "submit_answer" (some aid) elapsedOpt =
        (db, [Effect.send (Target.one pid)
          (Msg.error "Already answered this question")]) := by
  constructor
  · intro db2 sid2 pid2 mt aidOpt e2 hinv
    unfold handleParticipantMessage
    cases hf : db2.sessions.find? (fun t => t.id = sid2) with
    | none => exact hinv
    | some sess =>
      dsimp only
      by_cases hmt : mt = "submit_answer"
      case neg => rw [if_neg hmt]; exact hinv
      rw [if_pos hmt]
      by_cases hst : sess.status ≠ "active"
      case pos => rw [if_pos hst]; exact hinv
      rw [if_neg hst]
      by_cases hae : aidOpt.getD "" = ""
      case pos => rw [if_pos hae]; exact hinv
      rw [if_neg hae]
      cases hqz : db2.quizzes.find? (fun z => z.id = sess.quiz_id) with
      | none => exact hinv
      | some qz2 =>
        dsimp only
        by_cases hidx : sess.current_question_idx < 0 ∨
            ((questionsOf db2 sess.quiz_id).length : Int) ≤ sess.current_question_idx
        case pos => rw [if_pos hidx]; exact hinv
        rw [if_neg hidx]
        cases hgq : (questionsOf db2 sess.quiz_id).get? sess.current_question_idx.toNat with
        | none => exact hinv
        | some question =>
          dsimp only
          cases hfa : db2.answers.find?
              (fun x => x.id = aidOpt.getD "" ∧ x.question_id = question.id) with
          | none => exact hinv
          | some answer =>
            dsimp only
            cases hfp : db2.participants.find? (fun p => p.id = pid2) with
            | none => exact hinv
            | some participant =>
              dsimp only
              by_cases hany : db2.responses.any
                  (fun r => r.participant_id = pid2 ∧ r.question_id = question.id) = true
              case pos => rw [if_pos hany]; exact hinv
              rw [if_neg hany]
              unfold DB.atMostOneResponse at hinv ⊢
              dsimp only
              refine List.pairwise_append.mpr ⟨hinv, List.pairwise_singleton _ _, ?_⟩
              intro x hx b hb
              rw [List.mem_singleton.mp hb]
              have hno2 : ∀ r ∈ db2.responses,
                  ¬(r.participant_id = pid2 ∧ r.question_id = question.id) := by
                simpa using hany
              simpa using hno2 x hx
  · have hg : ¬(s.current_question_idx < 0 ∨
        ((questionsOf db s.quiz_id).length : Int) ≤ s.current_question_idx) := by
      push_neg
      exact ⟨h0, hlen⟩
    have hq2 : (questionsOf db s.quiz_id)[s.current_question_idx.toNat]? = some q := by
      simpa using hq
    have ha2 : db.answers.find?
        (fun x => decide (x.id = aid) && decide (x.question_id = q.id)) = some a := by
      simpa using ha
    have hdup2 : ∃ x ∈ db.responses,
        x.participant_id = pid ∧ x.question_id = q.id := by
      simpa using hdup
    unfold handleParticipantMessage
    rw [hfind]
    simp [hstatus, haid, hquiz, hg, hq2, ha2, hpart, hdup2]

/-- Witness for C4: alice already answered q1, so a second submission is
rejected with the already-answered error and the store is unchanged. -/
theorem c4_at_most_one_response_witness :
    handleParticipantMessage exDB4 "S" "p1" "submit_answer" (some "a1") (some 5) =
      (exDB4, [Effect.send (Target.one "p1")
        (Msg.error "Already answered this question")])
    ∧ DB.atMostOneResponse
        (handleParticipantMessage exDB4 "S" "p1" "submit_answer" (some "a1") (some 5)).1 := by
  have h := c4_at_most_one_response exDB4 "S" "p1" "a1" (some 5)
    { id := "S", quiz_id := "QZ", owner_id := "u1", code := "ABC123",
      status := "active", current_question_idx := 0 }
    exQuiz exQ1
    { id := "a1", question_id := "q1", text := "yes", is_correct := true, order := 0 }
    exP1
    (by decide) (by decide) (by decide) (by decide) (by decide) (by decide)
    (by decide) (by decide) (by decide) (by decide)
  refine ⟨h.2, ?_⟩
  rw [h.2]
  simp [DB.atMostOneResponse, exDB4]

theorem stableInsert_perm {α : Type} (le : α → α → Bool) (x : α) (l : List α) :
    List.Perm (stableInsert le x l) (x :: l) := by
  induction l with
  | nil => exact List.Perm.refl _
  | cons y ys ih =>
    unfold stableInsert
    split
    · exact (ih.cons y).trans (List.Perm.swap x y ys)
    · exact List.Perm.refl _

theorem stableSort_perm {α : Type} (le : α → α → Bool) (l : List α) :
    List.Perm (stableSort le l) l := by
  induction l with
  | nil => exact List.Perm.refl _
  | cons x xs ih => exact (stableInsert_perm le x _).trans (ih.cons x)

theorem pairwise_stableInsert {α : Type} {le : α → α → Bool}
    (htrans : ∀ a b c, le a b = true → le b c = true → le a c = true)
    (htotal : ∀ a b, le a b = true ∨ le b a = true)
    (x : α) (l : List α) (hl : l.Pairwise fun a b => le a b = true) :
    (stableInsert le x l).Pairwise fun a b => le a b = true := by
  induction l with
  | nil => simp [stableInsert]
  | cons y ys ih =>
    rw [List.pairwise_cons] at hl
    obtain ⟨hy, hys⟩ := hl
    unfold stableInsert
    split
    next h =>
      rw [Bool.and_eq_true, Bool.not_eq_true'] at h
      rw [List.pairwise_cons]
      refine ⟨?_, ih hys⟩
      intro b hb
      have hb2 : b ∈ x :: ys := (stableInsert_perm le x ys).mem_iff.mp hb
      rcases List.mem_cons.mp hb2 with hbx | hbys
      · rw [hbx]
        exact h.1
      · exact hy b hbys
    next h =>
      have hxy : le x y = true := by
        rcases htotal x y with h1 | h1
        · exact h1
        · by_contra h2
          apply h
          rw [Bool.and_eq_true, Bool.not_eq_true']
          exact ⟨h1, Bool.eq_false_iff.mpr h2⟩
      rw [List.pairwise_cons]
      refine ⟨?_, List.pairwise_cons.mpr ⟨hy, hys⟩⟩
      intro b hb
      rcases List.mem_cons.mp hb with hby | hbys
      · rw [hby]
        exact hxy
      · exact htrans x y b hxy (hy b hbys)

theorem pairwise_stableSort {α : Type} {le : α → α → Bool}
    (htrans : ∀ a b c, le a b = true → le b c = true → le a c = true)
    (htotal : ∀ a b, le a b = true ∨ le b a = true)
    (l : List α) :
    (stableSort le l).Pairwise fun a b => le a b = true := by
  induction l with
  | nil => simp [stableSort]
  | cons x xs ih => exact pairwise_stableInsert htrans htotal x _ ih

/-- C5 counterexample: two tied participants stored with the larger id first
are ranked in stored row order, not by participant_id ascending; swapping the
stored rows changes the leaderboard even though the set of
(participant_id, score) pairs is unchanged. -/
theorem c5_counterexample :
    buildLeaderboard exDB5 "S" =
      [{ participant_id := "pb", nickname := "bob", score := 10, rank := 1 },
       { participant_id := "pa", nickname := "amy", score := 10, rank := 2 }]
    ∧ specLeaderboardOrdered (buildLeaderboard exDB5 "S") = false
    ∧ List.Perm exDB5.participants exDB5swap.participants
    ∧ buildLeaderboard exDB5 "S" ≠ buildLeaderboard exDB5swap "S" := by
  refine ⟨by decide, by decide, ?_, by decide⟩
  exact List.Perm.swap _ _ _

/-- C5 amended: every leaderboard lists one entry per participant of the
session (same ids, nicknames and scores up to permutation), with 1-based
consecutive ranks and scores in descending order; ties keep the stored row
order of the participants table, so the output is a deterministic function of
the stored row sequence rather than of the set of (participant_id, score)
pairs. -/
theorem c5_leaderboard_characterization (db : DB) (sid : String) :
    List.Perm
      ((buildLeaderboard db sid).map fun e => (e.participant_id, e.nickname, e.score))
      ((db.participants.filter fun p => p.session_id = sid).map
        fun p => (p.id, p.nickname, p.score))
    ∧ (buildLeaderboard db sid).map LBEntry.rank =
        (List.range (buildLeaderboard db sid).length).map (fun i => i + 1)
    ∧ ((buildLeaderboard db sid).map LBEntry.score).Pairwise fun a b => b ≤ a := by
  have hlb : buildLeaderboard db sid =
      (stableSort (fun a b : Participant => b.score ≤ a.score)
        (db.participants.filter fun p => p.session_id = sid)).enum.map
        (fun e => { participant_id := e.2.id, nickname := e.2.nickname,
                    score := e.2.score, rank := e.1 + 1 : LBEntry }) := rfl
  refine ⟨?_, ?_, ?_⟩
  · rw [hlb, List.map_map]
    rw [show ((fun e : LBEntry => (e.participant_id, e.nickname, e.score)) ∘
        (fun e : Nat × Participant =>
          { participant_id := e.2.id, nickname := e.2.nickname,
            score := e.2.score, rank := e.1 + 1 : LBEntry })) =
        ((fun p : Participant => (p.id, p.nickname, p.score)) ∘ Prod.snd) from rfl]
    rw [← List.map_map, List.enum_map_snd]
    exact (stableSort_perm _ _).map _
  · rw [hlb, List.map_map]
    rw [show (LBEntry.rank ∘
        (fun e : Nat × Participant =>
          { participant_id := e.2.id, nickname := e.2.nickname,
            score := e.2.score, rank := e.1 + 1 : LBEntry })) =
        ((fun i : Nat => i + 1) ∘ Prod.fst) from rfl]
    rw [← List.map_map, List.enum_map_fst]
    congr 1
    simp
  · rw [hlb, List.map_map]
    rw [show (LBEntry.score ∘
        (fun e : Nat × Participant =>
          { participant_id := e.2.id, nickname := e.2.nickname,
            score := e.2.score, rank := e.1 + 1 : LBEntry })) =
        ((fun p : Participant => p.score) ∘ Prod.snd) from rfl]
    rw [← List.map_map, List.enum_map_snd]
    have hp := @pairwise_stableSort Participant
      (fun a b : Participant => decide (b.score ≤ a.score))
      (fun a b c hab hbc => by
        simp only [decide_eq_true_eq] at hab hbc ⊢
        omega)
      (fun a b => by
        simp only [decide_eq_true_eq]
        rcases le_total b.score a.score with h | h
        · exact Or.inl h
        · exact Or.inr h)
      (db.participants.filter fun p => p.session_id = sid)
    exact hp.map _ (fun a b h => of_decide_eq_true h)

theorem payload_all_hidden (db : DB) (q : Question) :
    ((questionPayload db q false).answers).all (fun a => a.is_correct = none) = true := by
  rw [List.all_eq_true]
  intro x hx
  simp only [questionPayload, List.mem_map] at hx
  obtain ⟨a, ha, rfl⟩ := hx
  simp

theorem payload_all_revealed (db : DB) (q : Question) :
    ((questionPayload db q true).answers).all (fun a => a.is_correct.isSome) = true := by
  rw [List.all_eq_true]
  intro x hx
  simp only [questionPayload, List.mem_map] at hx
  obtain ⟨a, ha, rfl⟩ := hx
  simp

/-- C6 counterexample: a late joiner on a revealing session receives a
`new_question` message whose answers do carry the `is_correct` field,
contradicting the claim that new_question answers never contain it. -/
theorem c6_counterexample :
    lateJoinSync (mkDB "revealing" 0) "S" =
      [Msg.game_started 2,
       Msg.new_question 0 2
         { question_id := "q1", text := "Q one", order := 0, time_limit := 30,
           image_url := none,
           answers := [{ id := "a1", text := "yes", order := 0, is_correct := some true },
                       { id := "a2", text := "no", order := 1, is_correct := some false }] }]
    ∧ ((lateJoinSync (mkDB "revealing" 0) "S").all msgHidesCorrectness) = false := by
  constructor <;> decide

/-- C6 amended: new_question broadcasts from start_game and next_question
never carry `is_correct`; answer_revealed broadcasts always carry it on every
answer; a late joiner's `new_question` carries `is_correct` exactly when the
session status is revealing (never when it is active). -/
theorem c6_correctness_visibility (db : DB) (sid : String) :
    (∀ e ∈ (handleAdminMessage db sid "start_game").2, effectHidesCorrectness e = true)
    ∧ (∀ e ∈ (handleAdminMessage db sid "next_question").2, effectHidesCorrectness e = true)
    ∧ (∀ e ∈ (handleAdminMessage db sid "reveal_answer").2, effectRevealsCorrectness e = true)
    ∧ (∀ s, db.sessions.find? (fun t => t.id = sid) = some s →
        (s.status = "active" →
          ∀ m ∈ lateJoinSync db sid, msgHidesCorrectness m = true)
        ∧ (s.status = "revealing" →
          ∀ m ∈ lateJoinSync db sid, msgNewQuestionRevealed m = true)) := by
  refine ⟨?_, ?_, ?_, ?_⟩
  · unfold handleAdminMessage
    cases hf : db.sessions.find? (fun t => t.id = sid) with
    | none => intro e he; simp at he
    | some s =>
      dsimp only
      cases hqz : db.quizzes.find? (fun z => z.id = s.quiz_id) with
      | none => intro e he; simp at he
      | some qz =>
        dsimp only
        rw [if_pos rfl]
        by_cases hst : s.status ≠ "lobby"
        · rw [if_pos hst]
          intro e he
          simp at he
        · rw [if_neg hst]
          cases hpg : pyGet (questionsOf db s.quiz_id) 0 with
          | none => intro e he; simp at he
          | some question =>
            dsimp only
            intro e he
            simp only [List.mem_cons, List.not_mem_nil, or_false] at he
            rcases he with rfl | rfl | rfl
            · rfl
            · simp [effectHidesCorrectness, msgHidesCorrectness, payload_all_hidden]
            · rfl
  · unfold handleAdminMessage
    cases hf : db.sessions.find? (fun t => t.id = sid) with
    | none => intro e he; simp at he
    | some s =>
      dsimp only
      cases hqz : db.quizzes.find? (fun z => z.id = s.quiz_id) with
      | none => intro e he; simp at he
      | some qz =>
        dsimp only
        rw [if_neg (by decide : ¬("next_question" = "start_game")), if_pos rfl]
        by_cases hst : s.status ≠ "active" ∧ s.status ≠ "revealing"
        · rw [if_pos hst]
          intro e he
          simp at he
        · rw [if_neg hst]
          by_cases hle : ((questionsOf db s.quiz_id).length : Int) ≤
              s.current_question_idx + 1
          · rw [if_pos hle]
            intro e he
            simp at he
          · rw [if_neg hle]
            cases hpg : pyGet (questionsOf db s.quiz_id) (s.current_question_idx + 1) with
            | none => intro e he; simp at he
            | some question =>
              dsimp only
              intro e he
              simp only [List.mem_cons, List.not_mem_nil, or_false] at he
              rcases he with rfl | rfl
              · simp [effectHidesCorrectness, msgHidesCorrectness, payload_all_hidden]
              · rfl
  · unfold handleAdminMessage
    cases hf : db.sessions.find? (fun t => t.id = sid) with
    | none => intro e he; simp at he
    | some s =>
      dsimp only
      cases hqz : db.quizzes.find? (fun z => z.id = s.quiz_id) with
      | none => intro e he; simp at he
      | some qz =>
        dsimp only
        rw [if_neg (by decide : ¬("reveal_answer" = "start_game")),
          if_neg (by decide : ¬("reveal_answer" = "next_question")), if_pos rfl]
        by_cases hst : s.status ≠ "active" ∧ s.status ≠ "revealing"
        · rw [if_pos hst]
          intro e he
          simp at he
        · rw [if_neg hst]
          cases hpg : pyGet (questionsOf db s.quiz_id) s.current_question_idx with
          | none => intro e he; simp at he
          | some question =>
            dsimp only
            intro e he
            simp only [List.mem_cons, List.not_mem_nil, or_false] at he
            rcases he with rfl
            simp [effectRevealsCorrectness, msgRevealsCorrectness, payload_all_revealed]
  · intro s hf
    constructor
    · intro hst m hm
      unfold lateJoinSync at hm
      rw [hf] at hm
      dsimp only at hm
      rw [if_pos (Or.inl hst)] at hm
      cases hqz : db.quizzes.find? (fun z => z.id = s.quiz_id) with
      | none => rw [hqz] at hm; simp at hm
      | some qz =>
        rw [hqz] at hm
        dsimp only at hm
        by_cases hidx : 0 ≤ s.current_question_idx ∧
            s.current_question_idx < ((questionsOf db s.quiz_id).length : Int)
        · rw [if_pos hidx] at hm
          cases hgq : (questionsOf db s.quiz_id).get? s.current_question_idx.toNat with
          | none =>
            rw [hgq] at hm
            simp at hm
            rw [hm]
            rfl
          | some question =>
            rw [hgq] at hm
            dsimp only at hm
            simp only [List.cons_append, List.nil_append, List.mem_cons,
              List.not_mem_nil, or_false] at hm
            rcases hm with rfl | rfl
            · rfl
            · simp [msgHidesCorrectness, hst, payload_all_hidden]
        · rw [if_neg hidx] at hm
          simp at hm
          rw [hm]
          rfl
    · intro hst m hm
      unfold lateJoinSync at hm
      rw [hf] at hm
      dsimp only at hm
      rw [if_pos (Or.inr hst)] at hm
      cases hqz : db.quizzes.find? (fun z => z.id = s.quiz_id) with
      | none => rw [hqz] at hm; simp at hm
      | some qz =>
        rw [hqz] at hm
        dsimp only at hm
        by_cases hidx : 0 ≤ s.current_question_idx ∧
            s.current_question_idx < ((questionsOf db s.quiz_id).length : Int)
        · rw [if_pos hidx] at hm
          cases hgq : (questionsOf db s.quiz_id).get? s.current_question_idx.toNat with
          | none =>
            rw [hgq] at hm
            simp at hm
            rw [hm]
            rfl
          | some question =>
            rw [hgq] at hm
            dsimp only at hm
            simp only [List.cons_append, List.nil_append, List.mem_cons,
              List.not_mem_nil, or_false] at hm
            rcases hm with rfl | rfl
            · rfl
            · simp [msgNewQuestionRevealed, hst, payload_all_revealed]
        · rw [if_neg hidx] at hm
          simp at hm
          rw [hm]
          rfl

/-- Witness for C6 amended: the active-state late-join new_question hides
correctness. -/
theorem c6_correctness_visibility_witness :
    msgHidesCorrectness (Msg.new_question 0 2
      (questionPayload (mkDB "active" 0) exQ1 false)) = true :=
  ((c6_correctness_visibility (mkDB "active" 0) "S").2.2.2
    { id := "S", quiz_id := "QZ", owner_id := "u1", code := "ABC123",
      status := "active", current_question_idx := 0 }
    (by decide)).1 rfl
    (Msg.new_question 0 2 (questionPayload (mkDB "active" 0) exQ1 false)) (by decide)

/-- C7: joining an active or revealing session with a nickname already present
returns the stored participant's identity and token, changes no persisted
state and emits nothing (idempotent rejoin); joining such a session with a
nickname not present is rejected. -/
theorem c7_rejoin_idempotent (db : DB) (code nickname freshPid freshToken : String)
    (now : Nat) (s : Session)
    (hfind : db.sessions.find? (fun t => t.code = pyUpper code) = some s)
    (hstatus : s.status = "active" ∨ s.status = "revealing") :
    (∀ p, db.participants.find?
        (fun q => q.session_id = s.id ∧ q.nickname = nickname) = some p →
      joinSession db code nickname freshPid freshToken now =
        (db, JoinResult.ok p.id p.nickname p.score p.joined_at s.id p.token, []))
    ∧ (db.participants.find?
        (fun q => q.session_id = s.id ∧ q.nickname = nickname) = none →
      joinSession db code nickname freshPid freshToken now =
        (db, JoinResult.alreadyStarted, [])) := by
  have hfin : ¬(s.status = "finished") := by
    rcases hstatus with h | h <;> simp [h]
  constructor
  · intro p hp
    unfold joinSession
    rw [hfind]
    have hp2 : db.participants.find?
        (fun q => decide (q.session_id = s.id) && decide (q.nickname = nickname)) =
          some p := by
      simpa using hp
    simp [hfin, hstatus, hp2]
  · intro hn
    unfold joinSession
    rw [hfind]
    have hn2 : db.participants.find?
        (fun q => decide (q.session_id = s.id) && decide (q.nickname = nickname)) =
          none := by
      simpa using hn
    simp [hfin, hstatus, hn2]

/-- Witness for C7: alice rejoins the active fixture session and gets her
original identity and token back; bob is rejected. -/
theorem c7_rejoin_idempotent_witness :
    joinSession (mkDB "active" 0) "ABC123" "alice" "pX" "tokX" 9 =
      (mkDB "active" 0, JoinResult.ok "p1" "alice" 0 0 "S" "tok1", []) := by
  have h := (c7_rejoin_idempotent (mkDB "active" 0) "ABC123" "alice" "pX" "tokX" 9
    { id := "S", quiz_id := "QZ", owner_id := "u1", code := "ABC123",
      status := "active", current_question_idx := 0 }
    (by decide) (Or.inl rfl)).1 exP1 (by decide)
  exact h

/-- C8 counterexample: detaching the last subscriber of session S deletes the
room entry but leaves the question-sent timestamp in place, contradicting the
claim that the timestamp is deleted with the room. -/
theorem c8_counterexample :
    (exHub.disconnect "S" exConn1).rooms "S" = none
    ∧ (exHub.disconnect "S" exConn1).question_sent_at "S" = some 5 := by
  constructor
  · rfl
  · rfl

/-- C8 amended: detach removes the given subscriber (first occurrence) from
the session's room and deletes the room entry when it becomes empty, but the
question-sent timestamp map is left entirely unchanged; no other session's
room is affected. -/
theorem c8_detach_behavior (h : Hub) (sid : String) (conn : Connection) :
    (∀ room, h.rooms sid = some room →
      (h.disconnect sid conn).rooms sid =
        (if (room.erase conn).isEmpty then none else some (room.erase conn)))
    ∧ (h.rooms sid = none → h.disconnect sid conn = h)
    ∧ (h.disconnect sid conn).question_sent_at = h.question_sent_at
    ∧ (∀ s, s ≠ sid → (h.disconnect sid conn).rooms s = h.rooms s) := by
  refine ⟨?_, ?_, ?_, ?_⟩
  · intro room hr
    unfold Hub.disconnect
    rw [hr]
    dsimp only
    split
    next hemp => simp
    next hemp => simp
  · intro hr
    unfold Hub.disconnect
    rw [hr]
  · unfold Hub.disconnect
    cases hr : h.rooms sid with
    | none => rfl
    | some room =>
      dsimp only
      split <;> rfl
  · intro s hs
    unfold Hub.disconnect
    cases hr : h.rooms sid with
    | none => rfl
    | some room =>
      dsimp only
      split <;> simp [hs]

/-- Witness for C8 amended: removing one of two subscribers keeps the room
with the other; detaching from an absent room is a no-op. -/
theorem c8_detach_behavior_witness :
    (exHub2.disconnect "S" exConn1).rooms "S" = some [exConn2]
    ∧ exHubEmpty.disconnect "S" exConn1 = exHubEmpty := by
  constructor
  · have h := (c8_detach_behavior exHub2 "S" exConn1).1 [exConn1, exConn2] rfl
    rw [h]
    rfl
  · exact (c8_detach_behavior exHubEmpty "S" exConn1).2.1 rfl

/-- C9 counterexample: a participant stream presenting a non-matching
(id, token) pair is closed with code 4004, not 4001 as claimed. -/
theorem c9_counterexample :
    authParticipantStream (mkDB "active" 0) "S" (some "p1") (some "bad") exHubEmpty 7 =
      (AuthOutcome.closed 4004, exHubEmpty, [])
    ∧ AuthOutcome.closed 4004 ≠ AuthOutcome.closed 4001 := by
  constructor
  · rfl
  · decide

/-- C9 amended: a participant auth whose non-empty (id, token) pair matches no
persisted participant row of the session closes the stream with code 4004,
never attaches it to the Hub and sends the presenter nothing; a missing or
empty id or token closes with 4001, likewise without attachment or message. -/
theorem c9_participant_auth (db : DB) (sid : String) (pid ptoken : Option String)
    (hub : Hub) (ws : Nat)
    (hne : ¬(pid.getD "" = "" ∨ ptoken.getD "" = ""))
    (hnomatch : db.participants.find? (fun p =>
        some p.id = pid ∧ p.session_id = sid ∧ some p.token = ptoken) = none) :
    authParticipantStream db sid pid ptoken hub ws =
      (AuthOutcome.closed 4004, hub, [])
    ∧ (∀ pid2 ptoken2 : Option String, pid2.getD "" = "" ∨ ptoken2.getD "" = "" →
        authParticipantStream db sid pid2 ptoken2 hub ws =
          (AuthOutcome.closed 4001, hub, [])) := by
  constructor
  · unfold authParticipantStream
    rw [if_neg hne, hnomatch]
  · intro pid2 ptoken2 h2
    unfold authParticipantStream
    rw [if_pos h2]

/-- Witness for C9 amended: a wrong token for alice closes with 4004, leaves
the hub untouched and sends nothing. -/
theorem c9_participant_auth_witness :
    authParticipantStream (mkDB "active" 0) "S" (some "p1") (some "wrong") exHubEmpty 7 =
      (AuthOutcome.closed 4004, exHubEmpty, []) :=
  (c9_participant_auth (mkDB "active" 0) "S" (some "p1") (some "wrong") exHubEmpty 7
    (by decide) (by decide)).1

end QuizForge
